import Mathlib

/-!
Shallow embedding of the naox convenience layer over the qi robotics SDK
(`src/naox/__init__.py` and `src/core/application.py`): the service cache,
the behavior lifecycle state machine, touch-event filtering, the blocking
touch wait, and the run traces of the two `Application.run` variants.
-/

namespace Naox

/-- One touch update as delivered by the vendor `TouchChanged` signal: a tuple
of (body-part identifier, boolean active flag, extra data). The source reads
only components 0 and 1. -/
structure TouchUpdate where
  part : String
  flag : Bool
  extra : Int
deriving DecidableEq

/-- Python truthiness of the `Optional[str]` value `body_part`: `None` and the
empty string are falsy, every other string is truthy. -/
def strOptTruthy : Option String → Bool
  | none => false
  | some s => !(s == "")

/-- The inner `touch_verifier` closure of `Behavior.on_body_touched`: given
the captured `body_part` filter and one delivered batch of touch updates, it
returns the list of arguments passed to `callback`, in delivery order. The
source skips updates with a falsy flag, and skips a truthy update when
`body_part and body_part != body_parts`. -/
def touch_verifier (body_part : Option String) : List TouchUpdate → List String
  | [] => []
  | u :: rest =>
    if u.flag then
      if strOptTruthy body_part = true ∧ body_part ≠ some u.part then
        touch_verifier body_part rest
      else
        u.part :: touch_verifier body_part rest
    else
      touch_verifier body_part rest

/-- Spec-side pass condition (section 4.4 of the spec, stated in its words):
an update fires the callback exactly when its flag is truthy and, when a
`body_part` filter was given, its part identifier equals the filter. -/
def matchesFilterSpec (body_part : Option String) (u : TouchUpdate) : Bool :=
  u.flag && (match body_part with
    | none => true
    | some s => u.part == s)

/-- Spec-side characterization of the callback invocations on one batch:
the part identifiers of exactly the passing updates, in delivery order. -/
def firedCallsSpec (body_part : Option String) (us : List TouchUpdate) : List String :=
  (us.filter (matchesFilterSpec body_part)).map TouchUpdate.part

/-- State of one `await_touch` call: the `touched_part` one-element cell and
the one-shot `threading.Event`. -/
structure AwaitState where
  touched_part : Option String
  event_set : Bool
deriving DecidableEq

/-- The inner `touch_callback` closure of `await_touch`: on a delivered part,
when `body_part is None or body_part == body_parts`, record the part and set
the event; otherwise leave the state unchanged. -/
def touch_callback (body_part : Option String) (s : AwaitState) (body_parts : String) : AwaitState :=
  if body_part = none ∨ body_part = some body_parts then
    { touched_part := some body_parts, event_set := true }
  else s

/-- Delivery of one batch to the subscription registered by `await_touch`:
`touch_verifier` filters the batch and each surviving part is fed to
`touch_callback`, synchronously and in order. -/
def deliverBatch (body_part : Option String) (s : AwaitState) (batch : List TouchUpdate) : AwaitState :=
  (touch_verifier body_part batch).foldl (touch_callback body_part) s

/-- Model of `touch_event.wait()` over a finite sequence of delivered batches:
the state at the first point the event is observed set, or `none` when the
event is never set (the wait blocks forever; there is no timeout). -/
def awaitTouchWait (body_part : Option String) : AwaitState → List (List TouchUpdate) → Option AwaitState
  | s, [] => if s.event_set then some s else none
  | s, b :: rest =>
    if s.event_set then some s
    else awaitTouchWait body_part (deliverBatch body_part s b) rest

/-- Attribute names set on a `Behavior` instance by `__init__` (its instance
dict): `application`, `session` and the three cached services. -/
def behaviorInstanceAttrNames : List String :=
  ["application", "session", "memory_service", "tts_service", "marker_service"]

/-- Attribute names defined at class scope on `Behavior`: the data attributes
with class-level defaults and the methods. Bare annotations create no class
attribute, and no attribute named `subscribers` exists anywhere. -/
def behaviorClassAttrNames : List String :=
  ["_active", "memory_service", "marker_service", "tts_service",
   "touch_subscribers", "marker_subscribers",
   "activate", "deactivate", "say", "on_body_touched", "await_touch",
   "on_nao_mark_detected", "wait_for_marker", "on_activate", "on_deactivate"]

/-- Python attribute lookup on a `Behavior` instance: the instance dict first,
then the class; any other name raises `AttributeError`. -/
def behaviorHasAttr (name : String) : Bool :=
  behaviorInstanceAttrNames.contains name || behaviorClassAttrNames.contains name

/-- Outcome of running a fragment of the embedded Python: a normal value, a
raised `AttributeError` on the named attribute, or blocking forever. -/
inductive PyOutcome (α : Type) where
  | ok : α → PyOutcome α
  | attributeError : String → PyOutcome α
  | blocked : PyOutcome α
deriving DecidableEq

/-- Model of `Behavior.await_touch` run against a finite sequence of delivered
batches: register the one-shot callback through `on_body_touched`, block on
the event, then execute `self.subscribers.clear()` (an attribute access that
fails when `subscribers` is not an attribute of `Behavior`) and return
`touched_part[0]`. -/
def await_touch (body_part : Option String) (batches : List (List TouchUpdate)) : PyOutcome (Option String) :=
  match awaitTouchWait body_part ⟨none, false⟩ batches with
  | none => .blocked
  | some s =>
    if behaviorHasAttr "subscribers" then .ok s.touched_part
    else .attributeError "subscribers"

/-- Lookup in a Python dict modelled as an association list, as in
`d.get(k, None)`. -/
def dictGet : List (String × Nat) → String → Option Nat
  | [], _ => none
  | (k, v) :: rest, key => if k = key then some v else dictGet rest key

/-- Assignment on a Python dict modelled as an association list: overwrite the
entry for an existing key, append a new key at the end. -/
def dictSet : List (String × Nat) → String → Nat → List (String × Nat)
  | [], key, v => [(key, v)]
  | (k, w) :: rest, key, v =>
    if k = key then (k, v) :: rest else (k, w) :: dictSet rest key v

/-- Result of one `use_service` call: the returned handle, the application's
service cache afterwards, and the names fetched from the session during the
call. -/
structure UseServiceResult where
  service : Nat
  services : List (String × Nat)
  fetched : List String
deriving DecidableEq

/-- Embedding of `use_service`: consult `behavior.application.services`; on a
miss, fetch the service from the session and store it under its name. Service
handles are identified by numbers and `session_service` is the session's
name-to-handle map. -/
def use_service (session_service : String → Nat) (services : List (String × Nat)) (service_name : String) : UseServiceResult :=
  match dictGet services service_name with
  | some service => ⟨service, services, []⟩
  | none =>
    let service := session_service service_name
    ⟨service, dictSet services service_name service, [service_name]⟩

/-- Lifecycle-relevant state of a `Behavior`: the `_active` flag plus counters
of invocations of the `on_activate` and `on_deactivate` hooks. -/
structure BehaviorLifecycle where
  _active : Bool
  on_activate_calls : Nat
  on_deactivate_calls : Nat
deriving DecidableEq

/-- Fresh behavior: the class default is `_active = False` and no hook has
been invoked yet. -/
def behaviorInit : BehaviorLifecycle := ⟨false, 0, 0⟩

/-- Embedding of `Behavior.activate`: when not already active, set `_active`
and call `on_activate`; otherwise do nothing. -/
def activate (b : BehaviorLifecycle) : BehaviorLifecycle :=
  if b._active then b
  else { b with _active := true, on_activate_calls := b.on_activate_calls + 1 }

/-- Embedding of `Behavior.deactivate`: when active, clear `_active` and call
`on_deactivate`; otherwise do nothing. -/
def deactivate (b : BehaviorLifecycle) : BehaviorLifecycle :=
  if b._active then
    { b with _active := false, on_deactivate_calls := b.on_deactivate_calls + 1 }
  else b

/-- Embedding of `Behavior.wait_for_marker`: its body is `pass`, so for every
argument it returns Python `None` (despite the declared `int` return
annotation) and leaves the behavior state untouched. -/
def wait_for_marker {T : Type} (marker_id : Option Int) (timeout : T) (b : BehaviorLifecycle) : Option Int × BehaviorLifecycle :=
  (none, b)

/-- Externally visible steps of a `run` call, in order. -/
inductive RunAction where
  | print_msg : String → RunAction
  | set_current_behavior : RunAction
  | behavior_activate : RunAction
  | qi_app_construct : RunAction
  | qi_start : RunAction
  | session_service : String → RunAction
  | tts_say : String → RunAction
  | qi_run : RunAction
deriving DecidableEq

/-- Trace of `Application.run` in `src/naox/__init__.py`: print, store the
behavior as `current_behavior`, invoke its `activate`, then block in the qi
event loop. -/
def naoxApplicationRun : List RunAction :=
  [.print_msg "Running application...", .set_current_behavior,
   .behavior_activate, .qi_run]

/-- Trace of `Application.run` in `src/core/application.py`: store the
behavior as `current_behavior`, construct and start the qi application, fetch
the speech service, announce the application name, then block in the qi event
loop. No activation step occurs. -/
def coreApplicationRun (appName : String) : List RunAction :=
  [.set_current_behavior, .qi_app_construct, .qi_start,
   .session_service "ALTextToSpeech", .tts_say ("Inicializando " ++ appName),
   .qi_run]

/-- Heap read for the subscription-list model: Python list objects live at
numeric addresses and hold subscription handles. -/
def heapGet : List (Nat × List Nat) → Nat → List Nat
  | [], _ => []
  | (a, l) :: rest, addr => if a = addr then l else heapGet rest addr

/-- In-place `append` on the list object at the given address. -/
def heapAppend : List (Nat × List Nat) → Nat → Nat → List (Nat × List Nat)
  | [], _, _ => []
  | (a, l) :: rest, addr, h =>
    if a = addr then (a, l ++ [h]) :: rest else (a, l) :: heapAppend rest addr h

/-- World for the subscription-list model: the heap of list objects plus the
address of the single class-level `touch_subscribers` list of `Behavior`. -/
structure SubsWorld where
  heap : List (Nat × List Nat)
  classTouchSubsAddr : Nat
deriving DecidableEq

/-- Instance dict of one `Behavior`, mapping attribute names to object
addresses. -/
structure BehaviorInstance where
  instDict : List (String × Nat)
deriving DecidableEq

/-- Python attribute lookup of `touch_subscribers` on an instance: the
instance dict first, falling back to the class-level attribute. -/
def resolveTouchSubsAddr (w : SubsWorld) (b : BehaviorInstance) : Nat :=
  match dictGet b.instDict "touch_subscribers" with
  | some addr => addr
  | none => w.classTouchSubsAddr

/-- Effect of `self.touch_subscribers.append(touch_subscriber)` inside
`on_body_touched`: mutate the list object found by attribute lookup. -/
def on_body_touched_subscribe (w : SubsWorld) (b : BehaviorInstance) (handle : Nat) : SubsWorld :=
  { w with heap := heapAppend w.heap (resolveTouchSubsAddr w b) handle }

/-- Reading `b.touch_subscribers` in the subscription-list model. -/
def touch_subscribers_of (w : SubsWorld) (b : BehaviorInstance) : List Nat :=
  heapGet w.heap (resolveTouchSubsAddr w b)

/-- Fresh world: the class-level `touch_subscribers` list lives at address 0
and is empty. -/
def subsWorldInit : SubsWorld := ⟨[(0, [])], 0⟩

/-- First `Behavior` instance exactly as `__init__` leaves it: `__init__`
assigns `application`, `session`, `memory_service`, `tts_service` and
`marker_service`, and never a per-instance `touch_subscribers`. -/
def behaviorInstanceA : BehaviorInstance :=
  ⟨[("application", 1), ("session", 2), ("memory_service", 3),
    ("tts_service", 4), ("marker_service", 5)]⟩

/-- Second, distinct `Behavior` instance as `__init__` leaves it. -/
def behaviorInstanceB : BehaviorInstance :=
  ⟨[("application", 1), ("session", 2), ("memory_service", 6),
    ("tts_service", 7), ("marker_service", 8)]⟩

/-- Demonstration batch from the spec's testable properties. -/
def c4Batch : List TouchUpdate :=
  [⟨"LArm", true, 0⟩, ⟨"RArm", false, 0⟩, ⟨"LArm", true, 0⟩]

/-! Helper lemmas. -/

theorem dictGet_dictSet_self (d : List (String × Nat)) (k : String) (v : Nat) :
    dictGet (dictSet d k v) k = some v := by
  induction d with
  | nil => simp [dictGet, dictSet]
  | cons p rest ih =>
    obtain ⟨a, b⟩ := p
    by_cases h : a = k
    · simp [dictGet, dictSet, h]
    · simp [dictGet, dictSet, h, ih]

theorem touch_verifier_none_eq_spec (us : List TouchUpdate) :
    touch_verifier none us = firedCallsSpec none us := by
  induction us with
  | nil => rfl
  | cons u rest ih =>
    by_cases hf : u.flag <;>
      simp [touch_verifier, firedCallsSpec, matchesFilterSpec, strOptTruthy,
        hf, List.filter_cons] at ih ⊢ <;>
      exact ih

theorem touch_verifier_some_eq_spec (s : String) (us : List TouchUpdate) (hs : s ≠ "") :
    touch_verifier (some s) us = firedCallsSpec (some s) us := by
  induction us with
  | nil => rfl
  | cons u rest ih =>
    by_cases hf : u.flag
    · by_cases hp : u.part = s
      · simp [touch_verifier, firedCallsSpec, matchesFilterSpec, strOptTruthy,
          hf, hp, hs, List.filter_cons] at ih ⊢
        exact ih
      · have hp' : ¬ s = u.part := fun hh => hp hh.symm
        simp [touch_verifier, firedCallsSpec, matchesFilterSpec, strOptTruthy,
          hf, hp, hp', hs, List.filter_cons] at ih ⊢
        exact ih
    · simp [touch_verifier, firedCallsSpec, matchesFilterSpec, hf,
        List.filter_cons] at ih ⊢
      exact ih

theorem touch_verifier_empty_eq_none (us : List TouchUpdate) :
    touch_verifier (some "") us = touch_verifier none us := by
  induction us with
  | nil => rfl
  | cons u rest ih =>
    by_cases hf : u.flag <;> simp [touch_verifier, strOptTruthy, hf, ih]

theorem touch_verifier_none_eq_flag_filter (us : List TouchUpdate) :
    touch_verifier none us = (us.filter (fun u => u.flag)).map TouchUpdate.part := by
  induction us with
  | nil => rfl
  | cons u rest ih =>
    by_cases hf : u.flag <;>
      simp [touch_verifier, strOptTruthy, hf, ih, List.filter_cons]

/-! Claim theorems. -/

/-- Claim C4: on each delivered batch, the registered callback is invoked
synchronously and in delivery order exactly on the updates whose flag is
truthy and whose part identifier equals the `body_part` filter when a
(truthy) filter was given; on the demonstration batch it fires twice with
"LArm" then "LArm" without a filter, and zero times with filter "RArm". -/
theorem c4_on_body_touched_filter :
    (∀ us : List TouchUpdate, touch_verifier none us = firedCallsSpec none us)
    ∧ (∀ (s : String) (us : List TouchUpdate), s ≠ "" →
        touch_verifier (some s) us = firedCallsSpec (some s) us)
    ∧ touch_verifier none c4Batch = ["LArm", "LArm"]
    ∧ touch_verifier (some "RArm") c4Batch = [] :=
  ⟨touch_verifier_none_eq_spec,
   fun s us hs => touch_verifier_some_eq_spec s us hs,
   by decide, by decide⟩

/-- Witness for C4 at the concrete filter "RArm" and the demonstration
batch. -/
theorem c4_on_body_touched_filter_witness :
    ("RArm" : String) ≠ ""
    ∧ touch_verifier (some "RArm") c4Batch = firedCallsSpec (some "RArm") c4Batch :=
  ⟨by decide, c4_on_body_touched_filter.2.1 "RArm" c4Batch (by decide)⟩

/-- Claim C10: passing the empty string as `body_part` behaves exactly like
passing no filter, because the filter is tested for truthiness; the callback
is then invoked on every truthy update regardless of its part identifier. -/
theorem c10_empty_string_filter :
    ∀ us : List TouchUpdate,
      touch_verifier (some "") us = touch_verifier none us
      ∧ touch_verifier none us = (us.filter (fun u => u.flag)).map TouchUpdate.part :=
  fun us => ⟨touch_verifier_empty_eq_none us, touch_verifier_none_eq_flag_filter us⟩

/-- Claim C3: `use_service` returns a cached handle unchanged with no fetch,
otherwise fetches from the session, stores the handle under the name and
returns it; hence a second call with the same name returns the identical
handle and performs no fetch. -/
theorem c3_use_service_cache :
    (∀ (sess : String → Nat) (d : List (String × Nat)) (n : String) (s : Nat),
        dictGet d n = some s → use_service sess d n = ⟨s, d, []⟩)
    ∧ (∀ (sess : String → Nat) (d : List (String × Nat)) (n : String),
        dictGet d n = none →
        use_service sess d n = ⟨sess n, dictSet d n (sess n), [n]⟩)
    ∧ (∀ (sess : String → Nat) (d : List (String × Nat)) (n : String),
        (use_service sess (use_service sess d n).services n).service
            = (use_service sess d n).service
        ∧ (use_service sess (use_service sess d n).services n).fetched = []) := by
  refine ⟨?_, ?_, ?_⟩
  · intro sess d n s h
    simp [use_service, h]
  · intro sess d n h
    simp [use_service, h]
  · intro sess d n
    cases hc : dictGet d n with
    | some s => simp [use_service, hc]
    | none => simp [use_service, hc, dictGet_dictSet_self]

/-- Witness for C3: a cache hit on "ALMemory" and a cache miss on
"ALTextToSpeech" at concrete caches. -/
theorem c3_use_service_cache_witness :
    (dictGet [("ALMemory", 7)] "ALMemory" = some 7
      ∧ use_service (fun _ => 42) [("ALMemory", 7)] "ALMemory"
          = ⟨7, [("ALMemory", 7)], []⟩)
    ∧ (dictGet ([] : List (String × Nat)) "ALTextToSpeech" = none
      ∧ use_service (fun _ => 42) [] "ALTextToSpeech"
          = ⟨42, [("ALTextToSpeech", 42)], ["ALTextToSpeech"]⟩) :=
  ⟨⟨by decide,
    c3_use_service_cache.1 (fun _ => 42) [("ALMemory", 7)] "ALMemory" 7 (by decide)⟩,
   ⟨by decide,
    c3_use_service_cache.2.1 (fun _ => 42) [] "ALTextToSpeech" (by decide)⟩⟩

/-- Claim C5: starting from the fresh state, the first `activate` transitions
the behavior from inactive to active and invokes `on_activate` once, and a
second `activate` changes nothing; in general `activate` is a no-op on an
already active behavior. -/
theorem c5_activate_idempotent :
    behaviorInit._active = false
    ∧ activate behaviorInit = ⟨true, 1, 0⟩
    ∧ activate (activate behaviorInit) = ⟨true, 1, 0⟩
    ∧ (∀ b : BehaviorLifecycle, b._active = true → activate b = b) := by
  refine ⟨rfl, rfl, rfl, ?_⟩
  intro b h
  simp [activate, h]

/-- Witness for C5 at a concrete active state. -/
theorem c5_activate_idempotent_witness :
    (⟨true, 5, 2⟩ : BehaviorLifecycle)._active = true
    ∧ activate ⟨true, 5, 2⟩ = ⟨true, 5, 2⟩ :=
  ⟨rfl, c5_activate_idempotent.2.2.2 ⟨true, 5, 2⟩ rfl⟩

/-- Claim C6: `deactivate` on a never-activated behavior invokes
`on_deactivate` zero times and leaves the behavior inactive; the hook is
invoked exactly on an actual active-to-inactive transition. -/
theorem c6_deactivate_fresh_no_hook :
    deactivate behaviorInit = behaviorInit
    ∧ (deactivate behaviorInit).on_deactivate_calls = 0
    ∧ (deactivate behaviorInit)._active = false
    ∧ (∀ b : BehaviorLifecycle,
        (deactivate b).on_deactivate_calls
          = b.on_deactivate_calls + (if b._active then 1 else 0))
    ∧ (∀ b : BehaviorLifecycle, b._active = false → deactivate b = b) := by
  refine ⟨rfl, rfl, rfl, ?_, ?_⟩
  · intro b
    by_cases h : b._active <;> simp [deactivate, h]
  · intro b h
    simp [deactivate, h]

/-- Witness for C6 at a concrete inactive state. -/
theorem c6_deactivate_fresh_no_hook_witness :
    (⟨false, 4, 1⟩ : BehaviorLifecycle)._active = false
    ∧ deactivate ⟨false, 4, 1⟩ = ⟨false, 4, 1⟩ :=
  ⟨rfl, c6_deactivate_fresh_no_hook.2.2.2.2 ⟨false, 4, 1⟩ rfl⟩

/-- Claim C9: `wait_for_marker` has the body `pass`, so for every marker id,
timeout and behavior state it returns Python `None` and leaves the behavior
state untouched, despite its declared `int` return annotation. -/
theorem c9_wait_for_marker_returns_none :
    ∀ (T : Type) (marker_id : Option Int) (timeout : T) (b : BehaviorLifecycle),
      wait_for_marker marker_id timeout b = (none, b) :=
  fun _ _ _ _ => rfl

/-- Claim C1 (code defect): with filter "Head/Touch/Front" a non-matching
update alone leaves the wait blocked, and once the matching update arrives
the wait fires having recorded "Head/Touch/Front"; but `await_touch` then
raises `AttributeError` at `self.subscribers.clear()` instead of returning
the identifier, because `Behavior` has no attribute named `subscribers`. -/
theorem c1_await_touch_defect :
    await_touch (some "Head/Touch/Front") [[⟨"Head/Touch/Rear", true, 0⟩]]
        = PyOutcome.blocked
    ∧ awaitTouchWait (some "Head/Touch/Front") ⟨none, false⟩
        [[⟨"Head/Touch/Rear", true, 0⟩], [⟨"Head/Touch/Front", true, 0⟩]]
        = some ⟨some "Head/Touch/Front", true⟩
    ∧ await_touch (some "Head/Touch/Front")
        [[⟨"Head/Touch/Rear", true, 0⟩], [⟨"Head/Touch/Front", true, 0⟩]]
        = PyOutcome.attributeError "subscribers" := by
  refine ⟨?_, ?_, ?_⟩ <;> decide

/-- Claim C2 (code defect): `Behavior` defines `touch_subscribers` but no
attribute named `subscribers`, so the bulk cleanup step of `await_touch`
raises `AttributeError` after the event fires rather than clearing the
accumulated subscriptions. -/
theorem c2_cleanup_defect :
    behaviorHasAttr "subscribers" = false
    ∧ behaviorHasAttr "touch_subscribers" = true
    ∧ await_touch none [[⟨"LArm", true, 0⟩]]
        = PyOutcome.attributeError "subscribers" := by
  refine ⟨?_, ?_, ?_⟩ <;> decide

/-- Counterexample to C7 as stated: the `run` of `src/core/application.py`
stores the behavior and reaches the blocking event loop without ever invoking
the behavior's activation. -/
theorem c7_core_run_counterexample :
    RunAction.behavior_activate ∉ coreApplicationRun "demo_app"
    ∧ RunAction.qi_run ∈ coreApplicationRun "demo_app" := by
  refine ⟨?_, ?_⟩ <;> decide

/-- Claim C7 amended: the naox `Application.run` stores the behavior as
current and invokes its activation before entering the blocking event loop,
while the core `Application.run` stores the behavior as current but never
invokes activation. -/
theorem c7_run_amended :
    naoxApplicationRun.indexOf RunAction.set_current_behavior
        < naoxApplicationRun.indexOf RunAction.behavior_activate
    ∧ naoxApplicationRun.indexOf RunAction.behavior_activate
        < naoxApplicationRun.indexOf RunAction.qi_run
    ∧ RunAction.behavior_activate ∈ naoxApplicationRun
    ∧ (∀ appName : String,
        RunAction.set_current_behavior ∈ coreApplicationRun appName
        ∧ RunAction.behavior_activate ∉ coreApplicationRun appName) := by
  refine ⟨by decide, by decide, by decide, ?_⟩
  intro appName
  refine ⟨?_, ?_⟩
  · simp [coreApplicationRun]
  · simp [coreApplicationRun]

/-- Claim C8 (code defect): `touch_subscribers` is a single class-level list
shared by all instances; a handle appended through one instance's
`on_body_touched` becomes visible in a second, distinct instance's
`touch_subscribers`, since neither instance dict holds its own entry. -/
theorem c8_shared_class_list_defect :
    touch_subscribers_of subsWorldInit behaviorInstanceA = []
    ∧ touch_subscribers_of subsWorldInit behaviorInstanceB = []
    ∧ touch_subscribers_of
        (on_body_touched_subscribe subsWorldInit behaviorInstanceA 7)
        behaviorInstanceB = [7]
    ∧ dictGet behaviorInstanceA.instDict "touch_subscribers" = none
    ∧ dictGet behaviorInstanceB.instDict "touch_subscribers" = none := by
  refine ⟨?_, ?_, ?_, ?_, ?_⟩ <;> decide

end Naox
